import Mathlib

/-!
Shallow embedding of `outdoor_job_scraper.py` (Tampa Bay outdoor-job
scraper): the `JobListing` data model, the retrying fetcher `make_request`,
the per-site extractors, the aggregator `run_scraping`, the JSON persister
`save_to_json`, and the grouping of jobs by source performed by the digest
builder, together with theorems checking the claims of the specification
against these definitions.
-/

/-- The `JobListing` dataclass: all fields plain strings except the two
optional ones (`date_posted` and `experience_level`, defaulting to `None`)
and `source` (defaulting to the empty string). -/
structure JobListing where
  title : String
  company : String
  location : String
  description : String
  url : String
  date_posted : Option String := none
  experience_level : Option String := none
  source : String := ""
deriving Repr, DecidableEq

/-! ## Fetcher: `make_request` (lines 81-96)

The network is modelled as a function `net : String → Nat → Option α`
giving, for a URL, the outcome of the i-th attempt (0-based, as the Python
loop counter `attempt`): `some doc` when the GET, the status check and the
parse succeed, `none` when a `RequestException` is raised.  The loop body is
pure; we additionally record the list of exponential-backoff sleeps
(`time.sleep(2 ** attempt)`) the loop performs.  The politeness delay
`delay_request()` issued before each attempt is not a backoff wait and is
not recorded.  The embedding is a total function, so the fail-soft contract
(never raising to the caller) is expressed by it always returning a
value. -/

/-- One pass of the `for attempt in range(max_retries)` loop of
`make_request`, with `fuel` the number of remaining loop iterations
(initially `max_retries`) and `attempt` the current 0-based counter.
Returns the fetch result together with the list of backoff waits performed,
in order. -/
def requestLoop (outcome : Nat → Option α) (max_retries : Nat) :
    Nat → Nat → Option α × List Nat
  | 0, _ => (none, [])
  | fuel + 1, attempt =>
    match outcome attempt with
    | some doc => (some doc, [])
    | none =>
      if attempt < max_retries - 1 then
        let r := requestLoop outcome max_retries fuel (attempt + 1)
        (r.1, 2 ^ attempt :: r.2)
      else
        (none, [])

/-- `make_request(url, max_retries)` (the code calls it with the default
`max_retries = 3`): run the retry loop from attempt 0.  First component:
the returned value (`some` parsed document, or `none` for the Python
`None`); second component: the backoff waits performed. -/
def make_request (net : String → Nat → Option α) (url : String)
    (max_retries : Nat) : Option α × List Nat :=
  requestLoop (net url) max_retries max_retries 0

/-! ## String helpers

The Python substring test `needle in haystack` and `str.lower()`, used by
the keyword relevance filters and by the `href` pattern of `find_all`.
They are written over character lists so that concrete inputs evaluate
inside the kernel. -/

/-- Do the characters of `pat` occur at the head of `l`? -/
def headMatch : List Char → List Char → Bool
  | [], _ => true
  | _ :: _, [] => false
  | a :: as, b :: bs => a == b && headMatch as bs

/-- Does `pat` occur contiguously somewhere in `l`?  (The Python `in` test
on strings, over character lists.) -/
def subMatch (pat : List Char) : List Char → Bool
  | [] => pat.isEmpty
  | l@(_ :: rest) => headMatch pat l || subMatch pat rest

/-- The Python test `pat in s` on strings. -/
def strContains (s pat : String) : Bool := subMatch pat.toList s.toList

/-- Lower-case one character (ASCII range; every keyword and URL in the
source is ASCII): `str.lower()` per character. -/
def lowerChar (c : Char) : Char :=
  if 'A' ≤ c ∧ c ≤ 'Z' then Char.ofNat (c.toNat + 32) else c

/-- The Python `s.lower()`. -/
def strLower (s : String) : String := ⟨s.toList.map lowerChar⟩

/-- The Python test `kw in title.lower()`: case-insensitive containment of
an already-lowercase keyword. -/
def lowerContains (s kw : String) : Bool := strContains (strLower s) kw

/-- Does `s` start with `pat`?  (Over character lists.) -/
def strStarts (s pat : String) : Bool := headMatch pat.toList s.toList

/-- Models `urllib.parse.urljoin(base, rel)` from the Python standard
library (not repository code): an absolute reference is returned unchanged,
otherwise the reference is resolved against the base.  Only the presence or
absence of a link matters to the claims, never the joined value itself. -/
def urljoin (base rel : String) : String :=
  if strStarts rel "http://" || strStarts rel "https://" then rel
  else base ++ rel

/-! ## County/state-park extractors (lines 195-328)

A parsed page is modelled by the list of its anchor elements, each carrying
its stripped text and its `href`.  The call
`soup.find_all` with `href` matching the regular expression
`career|job|employment` (ignore-case) keeps the anchors whose `href`
contains one of the three words, case-insensitively. -/

/-- An anchor element: `text` is `get_text(strip=True)`, `href` the `href`
attribute. -/
structure Anchor where
  text : String
  href : String
deriving Repr, DecidableEq

/-- The `href` regular-expression filter of `find_all`: case-insensitive
substring search for any of the three words `career`, `job`,
`employment`. -/
def href_matches (href : String) : Bool :=
  lowerContains href "career" || lowerContains href "job" || lowerContains href "employment"

/-- Keyword vocabulary of the four county/city extractors
(`_scrape_hillsborough_parks` line 207, `_scrape_pinellas_parks` line 234,
`_scrape_tampa_parks` line 261, `_scrape_stpete_parks` line 288). -/
def county_keywords : List String :=
  ["park", "recreation", "outdoor", "nature", "environmental"]

/-- Keyword vocabulary of `_scrape_fl_state_parks` (line 315): the county
vocabulary plus `ranger`. -/
def state_keywords : List String :=
  ["park", "ranger", "recreation", "outdoor", "nature", "environmental"]

/-- The shared body of the five `_scrape_*` methods: filter anchors by the
`href` pattern, take the first 10, keep those whose title contains one of
the keywords (case-insensitively), and build a `JobListing` with the fixed
company/location/description/source strings of that method.  A failed fetch
(`soup = None`) yields no jobs. -/
def scrape_links (url company location description source : String)
    (keywords : List String) (soup : Option (List Anchor)) : List JobListing :=
  match soup with
  | none => []
  | some anchors =>
    (((anchors.filter fun a => href_matches a.href).take 10).filterMap fun link =>
      if keywords.any (fun kw => lowerContains link.text kw) then
        some { title := link.text, company := company, location := location,
               description := description, url := urljoin url link.href,
               source := source }
      else none)

/-- `_scrape_hillsborough_parks` (lines 195-220). -/
def scrape_hillsborough_parks (soup : Option (List Anchor)) : List JobListing :=
  scrape_links
    "https://www.hillsboroughcounty.org/en/government/departments/human-resources"
    "Hillsborough County" "Hillsborough County, FL"
    "County park and recreation position" "Hillsborough County Parks"
    county_keywords soup

/-- `_scrape_pinellas_parks` (lines 222-247). -/
def scrape_pinellas_parks (soup : Option (List Anchor)) : List JobListing :=
  scrape_links "https://www.pinellas.gov/Government/Human-Resources"
    "Pinellas County" "Pinellas County, FL"
    "County park and recreation position" "Pinellas County Parks"
    county_keywords soup

/-- `_scrape_tampa_parks` (lines 249-274). -/
def scrape_tampa_parks (soup : Option (List Anchor)) : List JobListing :=
  scrape_links "https://www.tampa.gov/careers"
    "City of Tampa" "Tampa, FL"
    "City park and recreation position" "Tampa Parks & Recreation"
    county_keywords soup

/-- `_scrape_stpete_parks` (lines 276-301). -/
def scrape_stpete_parks (soup : Option (List Anchor)) : List JobListing :=
  scrape_links
    "https://www.stpete.org/government/city_departments/human_resources/employment_opportunities.php"
    "City of St. Petersburg" "St. Petersburg, FL"
    "City park and recreation position" "St. Pete Parks & Recreation"
    county_keywords soup

/-- `_scrape_fl_state_parks` (lines 303-328): same body, but its keyword
list also contains `ranger`. -/
def scrape_fl_state_parks (soup : Option (List Anchor)) : List JobListing :=
  scrape_links "https://www.floridastateparks.org/employment"
    "Florida State Parks" "Tampa Bay Area, FL"
    "State park position" "Florida State Parks"
    state_keywords soup

/-- `scrape_county_parks` (lines 167-193): the five park extractors in the
fixed order of the code, results concatenated. -/
def scrape_county_parks (h p t s f : Option (List Anchor)) : List JobListing :=
  scrape_hillsborough_parks h ++ scrape_pinellas_parks p ++ scrape_tampa_parks t
    ++ scrape_stpete_parks s ++ scrape_fl_state_parks f

/-! ## Indeed extractor: `scrape_indeed` (lines 98-165)

A job card is modelled by the text each selector of the method would find
(`none` when the element is absent), plus the `href` of the anchor inside
the found title element.  The per-card `try/except` only skips a card on an
extraction error; the pure embedding has no other failure source. -/

/-- One Indeed job card: for each selector of the method, the stripped text
it yields, or `none` when the element is absent.  The pairs are
(`title_h2`, `title_a`) for the title, (`companyName`, `company_location`)
for the company, (`companyLocation`, `location_span`) for the location,
(`job_snippet`, `summary`) for the description and (`date_span`,
`postedDate`) for the posting date; `anchor_href` is the `href` of the
anchor inside the title element. -/
structure IndeedCard where
  title_h2 : Option String
  title_a : Option String
  companyName : Option String
  company_location : Option String
  companyLocation : Option String
  location_span : Option String
  job_snippet : Option String
  summary : Option String
  anchor_href : Option String
  date_span : Option String
  postedDate : Option String
deriving Repr, DecidableEq

/-- An Indeed results page: the cards matched by the primary
`job_seen_beacon` class selector and by the `data-jk` fallback selector of
line 119. -/
structure IndeedDoc where
  job_seen_beacon : List IndeedCard
  data_jk_divs : List IndeedCard
deriving Repr, DecidableEq

/-- Base URL of the Indeed search (line 104). -/
def indeed_base_url : String := "https://www.indeed.com/jobs"

/-- The loop body of `scrape_indeed` for one card (lines 122-158): if both
title selectors fail, `continue` (no record); otherwise build the record,
substituting `Unknown Company`, `Tampa Bay Area`,
`No description available`, the empty string and `None` when the respective
selector pairs fail, and truncating a found description to its first 200
characters. -/
def extract_indeed_card (base_url : String) (card : IndeedCard) :
    Option JobListing :=
  match card.title_h2.orElse fun _ => card.title_a with
  | none => none
  | some title =>
    some { title := title,
           company := ((card.companyName.orElse fun _ =>
             card.company_location).getD "Unknown Company"),
           location := ((card.companyLocation.orElse fun _ =>
             card.location_span).getD "Tampa Bay Area"),
           description := (((card.job_snippet.orElse fun _ =>
             card.summary).map fun s => s.take 200).getD "No description available"),
           url := (match card.anchor_href with
                   | some h => urljoin base_url h
                   | none => ""),
           date_posted := card.date_span.orElse fun _ => card.postedDate,
           source := "Indeed.com" }

/-- `scrape_indeed` (lines 98-165): on a failed fetch return the empty
list; otherwise take the primary card list, or the fallback list when the
primary is empty (the Python `or` of line 119), limit to the first 20 cards
and extract each. -/
def scrape_indeed (soup : Option IndeedDoc) : List JobListing :=
  match soup with
  | none => []
  | some doc =>
    let job_cards :=
      if doc.job_seen_beacon.isEmpty then doc.data_jk_divs else doc.job_seen_beacon
    (job_cards.take 20).filterMap (extract_indeed_card indeed_base_url)

/-! ## Aggregator: `create_sample_jobs` and `run_scraping` (lines 341-414) -/

/-- `create_sample_jobs` (lines 341-390): the fixed five-record sample
set. -/
def create_sample_jobs : List JobListing :=
  [ { title := "Park Ranger - Entry Level",
      company := "Hillsborough County Parks",
      location := "Tampa, FL",
      description := "Assist with park maintenance, visitor services, and environmental education programs. Great opportunity for outdoor enthusiasts!",
      url := "https://www.hillsboroughcounty.org/jobs",
      date_posted := some "Recent",
      source := "Hillsborough County Parks" },
    { title := "Environmental Specialist",
      company := "Pinellas County",
      location := "St. Petersburg, FL",
      description := "Work on environmental conservation projects and outdoor education programs in beautiful Pinellas County parks.",
      url := "https://www.pinellas.gov/jobs",
      date_posted := some "Recent",
      source := "Pinellas County Parks" },
    { title := "Recreation Coordinator",
      company := "City of Tampa",
      location := "Tampa, FL",
      description := "Plan and coordinate outdoor recreational activities and nature programs for city residents.",
      url := "https://www.tampa.gov/jobs",
      date_posted := some "Recent",
      source := "Tampa Parks & Recreation" },
    { title := "Wildlife Biologist Assistant",
      company := "Florida State Parks",
      location := "Tampa Bay Area, FL",
      description := "Support wildlife research and conservation efforts in state parks throughout the Tampa Bay region.",
      url := "https://www.floridastateparks.org/jobs",
      date_posted := some "Recent",
      source := "Florida State Parks" },
    { title := "Outdoor Education Instructor",
      company := "Tampa Bay Nature Center",
      location := "Tampa, FL",
      description := "Lead educational programs about local wildlife and ecosystems for school groups and families.",
      url := "https://example.com/apply",
      date_posted := some "Recent",
      source := "Indeed.com" } ]

/-- `run_scraping` (lines 392-414): extend the (initially empty) job list
with the Indeed jobs, then with the county/state-park jobs; if the combined
list is empty, substitute the sample jobs.  Parametrised by the fetched
documents of the six sources, in the fixed order of the code. -/
def run_scraping (indeedSoup : Option IndeedDoc)
    (h p t s f : Option (List Anchor)) : List JobListing :=
  let jobs := scrape_indeed indeedSoup ++ scrape_county_parks h p t s f
  if jobs.isEmpty then jobs ++ create_sample_jobs else jobs

/-! ## Persister: `save_to_json` (lines 330-339)

JSON values are modelled by an inductive type; `asdict(job)` produces an
object with the eight dataclass fields in declaration order, the optional
fields serialised as `null` when absent (`json.dump` writes the Python
`None` as `null`). -/

/-- A JSON value (the fragment produced and consumed here). -/
inductive Json where
  | str (s : String)
  | null
  | arr (l : List Json)
  | obj (fields : List (String × Json))

/-- An optional string as JSON: `null` for an absent value. -/
def optToJson : Option String → Json
  | none => Json.null
  | some s => Json.str s

/-- `asdict(job)` as serialised by `json.dump`: the eight fields in
dataclass declaration order. -/
def jobToJson (j : JobListing) : Json :=
  Json.obj [("title", Json.str j.title),
            ("company", Json.str j.company),
            ("location", Json.str j.location),
            ("description", Json.str j.description),
            ("url", Json.str j.url),
            ("date_posted", optToJson j.date_posted),
            ("experience_level", optToJson j.experience_level),
            ("source", Json.str j.source)]

/-- `save_to_json` (lines 330-339): the document written to the
timestamped file, a JSON array of the dicts of the jobs. -/
def save_to_json (jobs : List JobListing) : Json :=
  Json.arr (jobs.map jobToJson)

/-- Required string field of a JSON object. -/
def getStr (fields : List (String × Json)) (k : String) : Option String :=
  match fields.lookup k with
  | some (Json.str s) => some s
  | _ => none

/-- Optional string field of a JSON object: `null` decodes to absence. -/
def getOptStr (fields : List (String × Json)) (k : String) :
    Option (Option String) :=
  match fields.lookup k with
  | some Json.null => some none
  | some (Json.str s) => some (some s)
  | _ => none

/-- Modelled from the spec: the repository never reads the dump back (no
loader exists in the source; `json.load` is standard-library code), so the
round-trippable-format requirement of the spec is realised by this decoder
for one record, reading each field of the object, with `null` decoding the
absent optional fields. -/
def jobFromJson : Json → Option JobListing
  | Json.obj f => do
    let title ← getStr f "title"
    let company ← getStr f "company"
    let location ← getStr f "location"
    let description ← getStr f "description"
    let url ← getStr f "url"
    let date_posted ← getOptStr f "date_posted"
    let experience_level ← getOptStr f "experience_level"
    let source ← getStr f "source"
    pure { title := title, company := company, location := location,
           description := description, url := url, date_posted := date_posted,
           experience_level := experience_level, source := source }
  | _ => none

/-- Modelled from the spec: deserialise the persisted array element by
element; any malformed element fails the load. -/
def loadJobs : Json → Option (List JobListing)
  | Json.arr l => decodeList l
  | _ => none
where
  decodeList : List Json → Option (List JobListing)
    | [] => some []
    | j :: rest =>
      match jobFromJson j, decodeList rest with
      | some job, some jobs => some (job :: jobs)
      | _, _ => none

/-! ## Digest builder: grouping in `create_email` (lines 457-483) and the
section headers of `_generate_html_content` (lines 623-627)

Python dicts preserve insertion order, so `jobs_by_source` is an ordered
association list: one entry per first-seen source, each holding the jobs of
that source in input order. -/

/-- One iteration of the grouping loop of `create_email` (lines 464-468):
append the job to the entry of its source, creating the entry at the end on
first sight of the source. -/
def insertJob (acc : List (String × List JobListing)) (job : JobListing) :
    List (String × List JobListing) :=
  if acc.any (fun p => p.1 == job.source) then
    acc.map (fun p => if p.1 == job.source then (p.1, p.2 ++ [job]) else p)
  else
    acc ++ [(job.source, [job])]

/-- The `jobs_by_source` dict built by `create_email`, as an
insertion-ordered association list. -/
def jobsBySource (jobs : List JobListing) : List (String × List JobListing) :=
  jobs.foldl insertJob []

/-- The source sections of the rendered digest
(`_generate_html_content`, lines 623-627): one section per entry of
`jobs_by_source`, its header showing the source and `len(jobs)`. -/
def sourceSections (jobs : List JobListing) : List (String × Nat) :=
  (jobsBySource jobs).map fun p => (p.1, p.2.length)

/-- Accumulate the distinct elements of a list in first-seen order (the key
order of a Python dict filled by the grouping loop). -/
def seenInsert (acc : List String) (s : String) : List String :=
  if acc.any (fun t => t == s) then acc else acc ++ [s]

/-- The distinct elements of a list, in first-seen order. -/
def firstSeen (l : List String) : List String :=
  l.foldl seenInsert []

/-- Input of the C7 counterexample: an Indeed card on which every selector
fails. -/
def cardNoTitle : IndeedCard :=
  { title_h2 := none, title_a := none, companyName := none, company_location := none,
    companyLocation := none, location_span := none, job_snippet := none,
    summary := none, anchor_href := none, date_span := none, postedDate := none }

/-! ## Theorems -/

/-- If every attempt fails, the retry loop returns `none`, from any
starting point. -/
theorem requestLoop_all_fail (outcome : Nat → Option α) (m : Nat)
    (hfail : ∀ i, outcome i = none) :
    ∀ fuel attempt, (requestLoop outcome m fuel attempt).1 = none := by
  intro fuel
  induction fuel with
  | zero => intro attempt; rfl
  | succ n ih =>
    intro attempt
    simp only [requestLoop, hfail attempt]
    by_cases h : attempt < m - 1
    · simp only [if_pos h, ih (attempt + 1)]
    · simp only [if_neg h]

/-- C1: for every URL and every positive maximum attempt count, if every
attempt of `make_request` fails with a request error, the operation returns
the absence value (`none`); the embedding is total, so no exception escapes
to the caller. -/
theorem c1_fetch_all_fail_returns_none (net : String → Nat → Option α)
    (url : String) (max_retries : Nat) (_hpos : 0 < max_retries)
    (hfail : ∀ i, net url i = none) :
    (make_request net url max_retries).1 = none := by
  exact requestLoop_all_fail (net url) max_retries hfail max_retries 0

/-- C1 witness: a network on which every attempt fails, at a concrete URL
with the default limit of 3 attempts. -/
theorem c1_witness :
    (make_request (fun _ _ => (none : Option Unit)) "https://www.indeed.com/jobs" 3).1
      = none :=
  c1_fetch_all_fail_returns_none (fun _ _ => none) "https://www.indeed.com/jobs" 3
    (by decide) (fun _ => rfl)

/-- C2: a fetch with a limit of 3 attempts in which all 3 attempts fail
returns the absence value and performs exactly 2 backoff waits, of
`2 ^ attempt` time units each for the 0-based attempt counter: `2 ^ 0`
after the first failed attempt and `2 ^ 1` after the second, and no wait
after the third. -/
theorem c2_three_failures_two_backoffs (net : String → Nat → Option α)
    (url : String) (hfail : ∀ i, net url i = none) :
    make_request net url 3 = (none, [2 ^ 0, 2 ^ 1]) := by
  simp only [make_request, requestLoop, hfail]
  rfl

/-- C2 witness: the always-failing network at a concrete URL. -/
theorem c2_witness :
    make_request (fun _ _ => (none : Option Unit)) "https://www.indeed.com/jobs" 3
      = (none, [2 ^ 0, 2 ^ 1]) :=
  c2_three_failures_two_backoffs (fun _ _ => none) "https://www.indeed.com/jobs"
    (fun _ => rfl)

/-- C3: if the list aggregated from all sources is empty, the output of
`run_scraping` equals exactly the fixed 5-record sample set of
`create_sample_jobs`, whose titles are, in order: Park Ranger - Entry
Level, Environmental Specialist, Recreation Coordinator, Wildlife Biologist
Assistant, Outdoor Education Instructor. -/
theorem c3_empty_aggregate_yields_samples (i : Option IndeedDoc)
    (h p t s f : Option (List Anchor))
    (hempty : scrape_indeed i ++ scrape_county_parks h p t s f = []) :
    run_scraping i h p t s f = create_sample_jobs ∧
    create_sample_jobs.map (fun j => j.title) =
      ["Park Ranger - Entry Level", "Environmental Specialist",
       "Recreation Coordinator", "Wildlife Biologist Assistant",
       "Outdoor Education Instructor"] := by
  constructor
  · simp [run_scraping, hempty]
  · rfl

/-- C3 witness: a run in which every fetch failed, so every extractor
returns the empty list. -/
theorem c3_witness :
    scrape_indeed none ++ scrape_county_parks none none none none none = [] ∧
    run_scraping none none none none none none = create_sample_jobs :=
  ⟨rfl, (c3_empty_aggregate_yields_samples none none none none none none rfl).1⟩

/-- C4: when the per-source extractor outputs are not all empty, the list
aggregated by `run_scraping` is their concatenation in the fixed source
order Indeed, Hillsborough, Pinellas, Tampa, St. Petersburg, Florida State
Parks — hence source order and intra-source order are preserved — and its
length is the sum of the per-source lengths. -/
theorem c4_aggregate_order_and_length (i : Option IndeedDoc)
    (h p t s f : Option (List Anchor))
    (hne : scrape_indeed i ++ scrape_county_parks h p t s f ≠ []) :
    run_scraping i h p t s f =
      scrape_indeed i ++ scrape_hillsborough_parks h ++ scrape_pinellas_parks p
        ++ scrape_tampa_parks t ++ scrape_stpete_parks s ++ scrape_fl_state_parks f ∧
    (run_scraping i h p t s f).length =
      (scrape_indeed i).length + (scrape_hillsborough_parks h).length
        + (scrape_pinellas_parks p).length + (scrape_tampa_parks t).length
        + (scrape_stpete_parks s).length + (scrape_fl_state_parks f).length := by
  have h1 : run_scraping i h p t s f =
      scrape_indeed i ++ scrape_county_parks h p t s f := by
    simp only [run_scraping]
    rw [if_neg]
    simp [List.isEmpty_iff, hne]
  constructor
  · rw [h1]; simp [scrape_county_parks, List.append_assoc]
  · rw [h1]; simp [scrape_county_parks, List.length_append]; omega

/-- C4 witness: a run in which the Hillsborough page holds one relevant
anchor and every other source is empty. -/
theorem c4_witness :
    scrape_indeed none ++ scrape_county_parks
        (some [{ text := "Park Ranger", href := "jobs" }]) none none none none ≠ [] ∧
    (run_scraping none (some [{ text := "Park Ranger", href := "jobs" }])
        none none none none).length = 1 := by
  constructor
  · decide
  · have := (c4_aggregate_order_and_length none
      (some [{ text := "Park Ranger", href := "jobs" }]) none none none none
      (by decide)).2
    rw [this]; decide

/-- `jobsBySource` grows at the end of the job list by one `insertJob`
step. -/
theorem jobsBySource_append_singleton (jobs : List JobListing) (j : JobListing) :
    jobsBySource (jobs ++ [j]) = insertJob (jobsBySource jobs) j := by
  simp [jobsBySource, List.foldl_append]

/-- `firstSeen` grows at the end of the list by one `seenInsert` step. -/
theorem firstSeen_append_singleton (l : List String) (s : String) :
    firstSeen (l ++ [s]) = seenInsert (firstSeen l) s := by
  simp [firstSeen, List.foldl_append]

/-- Boolean membership test used by `seenInsert` and `insertJob`, as a
membership proposition. -/
theorem any_beq_iff (l : List String) (a : String) :
    l.any (fun t => t == a) = true ↔ a ∈ l := by
  rw [List.any_eq_true]
  constructor
  · rintro ⟨t, ht, hbeq⟩
    rw [beq_iff_eq] at hbeq
    exact hbeq ▸ ht
  · intro h
    exact ⟨a, h, by simp⟩

/-- `any` over a mapped list tests the composed predicate. -/
theorem any_map_comp {α β : Type} (f : α → β) (p : β → Bool) (l : List α) :
    (l.map f).any p = l.any fun a => p (f a) := by
  induction l with
  | nil => rfl
  | cons x xs ih => simp [ih]

/-- `firstSeen` has the same elements as its input. -/
theorem mem_firstSeen (l : List String) (a : String) :
    a ∈ firstSeen l ↔ a ∈ l := by
  induction l using List.reverseRecOn with
  | nil => simp [firstSeen]
  | append_singleton xs x ih =>
    rw [firstSeen_append_singleton]
    unfold seenInsert
    by_cases hmem : x ∈ firstSeen xs
    · rw [if_pos ((any_beq_iff _ _).2 hmem)]
      simp only [List.mem_append, List.mem_singleton, ih]
      constructor
      · exact Or.inl
      · rintro (h | rfl)
        · exact h
        · exact ih.1 hmem
    · rw [if_neg (fun hc => hmem ((any_beq_iff _ _).1 hc))]
      simp [ih]

/-- Characterisation of the grouping dict: one entry per source in
first-seen order, each holding exactly the jobs of that source in input
order. -/
theorem jobsBySource_eq (jobs : List JobListing) :
    jobsBySource jobs =
      (firstSeen (jobs.map fun j => j.source)).map
        (fun s => (s, jobs.filter fun j => j.source == s)) := by
  induction jobs using List.reverseRecOn with
  | nil => rfl
  | append_singleton l j ih =>
    rw [jobsBySource_append_singleton, ih, List.map_append, List.map_singleton,
      firstSeen_append_singleton]
    unfold insertJob seenInsert
    rw [any_map_comp]
    by_cases hmem : j.source ∈ firstSeen (l.map fun jb => jb.source)
    · rw [if_pos ((any_beq_iff _ _).2 hmem), if_pos ((any_beq_iff _ _).2 hmem)]
      rw [List.map_map]
      apply List.map_congr_left
      intro s _
      by_cases hsj : s = j.source
      · subst hsj
        simp [List.filter_append]
      · have h1 : (s == j.source) = false := by
          cases hbe : s == j.source with
          | false => rfl
          | true => exact absurd (beq_iff_eq.1 hbe) hsj
        have h2 : (j.source == s) = false := by
          cases hbe : j.source == s with
          | false => rfl
          | true => exact absurd (beq_iff_eq.1 hbe).symm hsj
        simp [h1, List.filter_append, h2, hsj]
    · rw [if_neg (fun hc => hmem ((any_beq_iff _ _).1 hc)),
        if_neg (fun hc => hmem ((any_beq_iff _ _).1 hc))]
      rw [List.map_append, List.map_singleton]
      have hnotin : j.source ∉ l.map fun jb => jb.source := fun hc =>
        hmem ((mem_firstSeen _ _).2 hc)
      congr 1
      · apply List.map_congr_left
        intro s hs
        have hsj : s ≠ j.source := fun hc => hmem (hc ▸ hs)
        have h2 : (j.source == s) = false := by
          cases hbe : j.source == s with
          | false => rfl
          | true => exact absurd (beq_iff_eq.1 hbe).symm hsj
        simp [List.filter_append, h2]
      · have hfil : (l.filter fun jb => jb.source == j.source) = [] := by
          rw [List.filter_eq_nil_iff]
          intro jb hjb
          simp only [beq_iff_eq]
          exact fun hc => hnotin (hc ▸ List.mem_map_of_mem _ hjb)
        simp [List.filter_append, hfil]

/-- `firstSeen` has no duplicates. -/
theorem firstSeen_nodup (l : List String) : (firstSeen l).Nodup := by
  induction l using List.reverseRecOn with
  | nil => simp [firstSeen]
  | append_singleton xs x ih =>
    rw [firstSeen_append_singleton]
    unfold seenInsert
    by_cases hmem : x ∈ firstSeen xs
    · rw [if_pos ((any_beq_iff _ _).2 hmem)]; exact ih
    · rw [if_neg (fun hc => hmem ((any_beq_iff _ _).1 hc))]
      simp [List.nodup_append, ih, hmem]

/-- The number of first-seen distinct elements is the number of distinct
elements. -/
theorem firstSeen_length (l : List String) :
    (firstSeen l).length = l.toFinset.card := by
  have h1 : (firstSeen l).toFinset = l.toFinset := by
    ext a
    simp [List.mem_toFinset, mem_firstSeen]
  rw [← h1, List.toFinset_card_of_nodup (firstSeen_nodup l)]

/-- C5: for every input list, the digest groups records by `source` into
one section per distinct source value — the number of sections equals the
number of distinct sources — sections appear in first-seen input order,
each section holds exactly the input records of its source in input order,
and each displayed per-section count is the number of input records with
that source. -/
theorem c5_digest_grouping (jobs : List JobListing) :
    jobsBySource jobs =
      (firstSeen (jobs.map fun j => j.source)).map
        (fun s => (s, jobs.filter fun j => j.source == s)) ∧
    sourceSections jobs =
      (firstSeen (jobs.map fun j => j.source)).map
        (fun s => (s, (jobs.filter fun j => j.source == s).length)) ∧
    (sourceSections jobs).length = (jobs.map fun j => j.source).toFinset.card := by
  refine ⟨jobsBySource_eq jobs, ?_, ?_⟩
  · rw [sourceSections, jobsBySource_eq jobs, List.map_map]
    rfl
  · rw [sourceSections, List.length_map, jobsBySource_eq jobs, List.length_map,
      firstSeen_length]

/-- Round-trip of one record through the JSON encoding. -/
theorem jobFromJson_jobToJson (j : JobListing) :
    jobFromJson (jobToJson j) = some j := by
  obtain ⟨t, c, lo, d, u, dp, el, s⟩ := j
  cases dp <;> cases el <;> rfl

/-- C6: serialising any list of job records with `save_to_json` and
deserialising the persisted document yields the original list record for
record, every field preserved exactly, including the absence of the
optional fields `date_posted` and `experience_level`. -/
theorem c6_roundtrip (jobs : List JobListing) :
    loadJobs (save_to_json jobs) = some jobs := by
  have key : ∀ l : List JobListing, loadJobs.decodeList (l.map jobToJson) = some l := by
    intro l
    induction l with
    | nil => rfl
    | cons j rest ih =>
      simp only [List.map_cons, loadJobs.decodeList, jobFromJson_jobToJson, ih]
  simpa [save_to_json, loadJobs] using key jobs

/-- C7 counterexample: a card on which the title is absent under both
selectors is dropped by the Indeed extractor (the loop hits `continue`),
not emitted with placeholder fields as the claim states. -/
theorem c7_counterexample :
    extract_indeed_card indeed_base_url cardNoTitle = none ∧
    scrape_indeed (some { job_seen_beacon := [cardNoTitle], data_jk_divs := [] }) = [] :=
  ⟨rfl, rfl⟩

/-- C7 amended: a candidate whose title is absent under both selectors is
skipped, not emitted; for a candidate whose title is found, a company,
location, description or link absent under both selectors is replaced by
the fixed placeholder (Unknown Company, Tampa Bay Area, No description
available, the empty string respectively), while an absent posting date is
kept as the absence value, and the record is emitted. -/
theorem c7_missing_fields (base : String) (card : IndeedCard) (t : String)
    (ht : (card.title_h2.orElse fun _ => card.title_a) = some t)
    (hc1 : card.companyName = none) (hc2 : card.company_location = none)
    (hl1 : card.companyLocation = none) (hl2 : card.location_span = none)
    (hd1 : card.job_snippet = none) (hd2 : card.summary = none)
    (ha : card.anchor_href = none)
    (hp1 : card.date_span = none) (hp2 : card.postedDate = none) :
    (∀ c : IndeedCard, c.title_h2 = none → c.title_a = none →
        extract_indeed_card base c = none) ∧
    extract_indeed_card base card =
      some { title := t, company := "Unknown Company", location := "Tampa Bay Area",
             description := "No description available", url := "",
             date_posted := none, experience_level := none, source := "Indeed.com" } := by
  constructor
  · intro c h1 h2
    simp [extract_indeed_card, h1, h2, Option.orElse]
  · simp [extract_indeed_card, ht, hc1, hc2, hl1, hl2, hd1, hd2, ha, hp1, hp2]

/-- C7 witness: a card whose only found element is the primary title. -/
theorem c7_witness :
    extract_indeed_card indeed_base_url
      { cardNoTitle with title_h2 := some "Park Ranger" } =
      some { title := "Park Ranger", company := "Unknown Company",
             location := "Tampa Bay Area", description := "No description available",
             url := "", date_posted := none, experience_level := none,
             source := "Indeed.com" } :=
  (c7_missing_fields indeed_base_url { cardNoTitle with title_h2 := some "Park Ranger" }
    "Park Ranger" rfl rfl rfl rfl rfl rfl rfl rfl rfl rfl).2

/-- A page holding one matching anchor produces one job exactly when the
anchor text passes the keyword filter. -/
theorem scrape_links_singleton (url company location description source : String)
    (keywords : List String) (a : Anchor) (hhref : href_matches a.href = true) :
    scrape_links url company location description source keywords (some [a]) =
      (if keywords.any (fun kw => lowerContains a.text kw) then
        [{ title := a.text, company := company, location := location,
           description := description, url := urljoin url a.href, source := source }]
      else []) := by
  simp only [scrape_links, List.filter, hhref, List.take, List.filterMap]
  cases hc : keywords.any (fun kw => lowerContains a.text kw) <;> simp [hc]

/-- C8 counterexample: the anchor titled Forest Ranger (whose title
contains the word ranger and none of the county keywords) is rejected by
the Hillsborough extractor yet accepted by the Florida State Parks
extractor, so the single six-word vocabulary of the claim is not the one
every filtering extractor uses. -/
theorem c8_counterexample :
    scrape_hillsborough_parks
        (some [{ text := "Forest Ranger", href := "https://jobs.example.com/1" }]) = [] ∧
    scrape_fl_state_parks
        (some [{ text := "Forest Ranger", href := "https://jobs.example.com/1" }]) =
      [{ title := "Forest Ranger", company := "Florida State Parks",
         location := "Tampa Bay Area, FL", description := "State park position",
         url := "https://jobs.example.com/1", date_posted := none,
         experience_level := none, source := "Florida State Parks" }] :=
  ⟨rfl, rfl⟩

/-- C8 amended: each filtering extractor accepts a candidate anchor exactly
when its title contains, case-insensitively, a word of its vocabulary; the
four county/city extractors share the five-word vocabulary park,
recreation, outdoor, nature, environmental, while the Florida State Parks
extractor alone additionally includes ranger. -/
theorem c8_keyword_filters (a : Anchor) (hhref : href_matches a.href = true) :
    county_keywords = ["park", "recreation", "outdoor", "nature", "environmental"] ∧
    state_keywords = ["park", "ranger", "recreation", "outdoor", "nature", "environmental"] ∧
    (scrape_hillsborough_parks (some [a]) ≠ [] ↔
      county_keywords.any (fun kw => lowerContains a.text kw) = true) ∧
    (scrape_pinellas_parks (some [a]) ≠ [] ↔
      county_keywords.any (fun kw => lowerContains a.text kw) = true) ∧
    (scrape_tampa_parks (some [a]) ≠ [] ↔
      county_keywords.any (fun kw => lowerContains a.text kw) = true) ∧
    (scrape_stpete_parks (some [a]) ≠ [] ↔
      county_keywords.any (fun kw => lowerContains a.text kw) = true) ∧
    (scrape_fl_state_parks (some [a]) ≠ [] ↔
      state_keywords.any (fun kw => lowerContains a.text kw) = true) := by
  have key : ∀ (url company location description source : String) (keywords : List String),
      scrape_links url company location description source keywords (some [a]) ≠ [] ↔
        keywords.any (fun kw => lowerContains a.text kw) = true := by
    intro url company location description source keywords
    rw [scrape_links_singleton url company location description source keywords a hhref]
    cases hc : keywords.any (fun kw => lowerContains a.text kw) <;> simp [hc]
  exact ⟨rfl, rfl, key .., key .., key .., key .., key ..⟩

/-- C8 witness: a concrete anchor whose href contains the word jobs. -/
theorem c8_witness :
    href_matches "jobs" = true ∧
    (scrape_hillsborough_parks (some [{ text := "Park Ranger", href := "jobs" }]) ≠ [] ↔
      county_keywords.any
        (fun kw => lowerContains (Anchor.text { text := "Park Ranger", href := "jobs" }) kw)
          = true) :=
  ⟨by decide, (c8_keyword_filters { text := "Park Ranger", href := "jobs" } (by decide)).2.2.1⟩

/-- C9 counterexample: in a zero-live-record run the digest built from the
substituted sample records has 5 source sections (the 5 samples carry 5
distinct source values), not 2 as the claim states. -/
theorem c9_counterexample :
    (sourceSections (run_scraping none none none none none none)).length ≠ 2 := by
  decide

/-- C9 amended: when every source yields 0 live records, the aggregator
substitutes exactly the 5 named sample records, and the digest rendered
from them has 5 source sections — Hillsborough County Parks, Pinellas
County Parks, Tampa Parks and Recreation, Florida State Parks, Indeed.com —
grouped by the source field of each sample, each section counting 1
record. -/
theorem c9_five_sections (i : Option IndeedDoc) (h p t s f : Option (List Anchor))
    (hempty : scrape_indeed i ++ scrape_county_parks h p t s f = []) :
    run_scraping i h p t s f = create_sample_jobs ∧
    sourceSections (run_scraping i h p t s f) =
      [("Hillsborough County Parks", 1), ("Pinellas County Parks", 1),
       ("Tampa Parks & Recreation", 1), ("Florida State Parks", 1),
       ("Indeed.com", 1)] := by
  have h1 : run_scraping i h p t s f = create_sample_jobs := by
    simp [run_scraping, hempty]
  exact ⟨h1, by rw [h1]; rfl⟩

/-- C9 witness: the all-sources-failed run. -/
theorem c9_witness :
    scrape_indeed none ++ scrape_county_parks none none none none none = [] ∧
    sourceSections (run_scraping none none none none none none) =
      [("Hillsborough County Parks", 1), ("Pinellas County Parks", 1),
       ("Tampa Parks & Recreation", 1), ("Florida State Parks", 1),
       ("Indeed.com", 1)] :=
  ⟨rfl, (c9_five_sections none none none none none none rfl).2⟩

/-- Every county/state extractor returns at most 10 records: only the
first 10 matching anchors are considered. -/
theorem scrape_links_length_le (url company location description source : String)
    (keywords : List String) (soup : Option (List Anchor)) :
    (scrape_links url company location description source keywords soup).length ≤ 10 := by
  cases soup with
  | none => simp [scrape_links]
  | some anchors =>
    simp only [scrape_links]
    refine le_trans (List.length_filterMap_le _ _) ?_
    rw [List.length_take]
    omega

/-- C10: for every input document the Indeed extractor returns at most 20
records and each of the five county/state extractors returns at most 10,
because each considers only the first 20 (respectively 10) candidate
elements. -/
theorem c10_extractor_caps (i : Option IndeedDoc) (h p t s f : Option (List Anchor)) :
    (scrape_indeed i).length ≤ 20 ∧
    (scrape_hillsborough_parks h).length ≤ 10 ∧
    (scrape_pinellas_parks p).length ≤ 10 ∧
    (scrape_tampa_parks t).length ≤ 10 ∧
    (scrape_stpete_parks s).length ≤ 10 ∧
    (scrape_fl_state_parks f).length ≤ 10 := by
  refine ⟨?_, scrape_links_length_le .., scrape_links_length_le ..,
    scrape_links_length_le .., scrape_links_length_le .., scrape_links_length_le ..⟩
  cases i with
  | none => simp [scrape_indeed]
  | some doc =>
    simp only [scrape_indeed]
    refine le_trans (List.length_filterMap_le _ _) ?_
    rw [List.length_take]
    omega
